import Mathlib

/-!
Verification of the haptic-browser tactile rendering core.

This file gives a shallow embedding, in Lean 4, of the height-tier mapping,
texture synthesis, tactile page compositing, raster fallback, Braille
encoding, navigation state machine and pin-field tick of the haptic-browser
repository, and proves (or refutes) the specified properties about them.

JavaScript numbers are modelled as real numbers (`ℝ`); machine floating
point is out of scope.  Loop-built `number[][]` arrays are modelled as
`List (List ℝ)` built with `List.range`, and imperative in-place updates as
functional state passing.  TypeScript optional fields that the code reads
with `?? / || []` fallbacks are modelled as `Option` or as lists defaulting
to `[]` as noted at each definition.
-/

namespace Haptic

/-- Height tiers (src `shapePage.ts`): `Level0 = 0 .. Level4 = 4`, a closed
union of five numeric constants. -/
inductive HeightTier where
  | level0
  | level1
  | level2
  | level3
  | level4
deriving DecidableEq, Repr

/-- Numeric value of a tier, as used by the sort comparator
`(a, b) => b.heightTier - a.heightTier`. -/
def HeightTier.toNat : HeightTier → ℕ
  | .level0 => 0
  | .level1 => 1
  | .level2 => 2
  | .level3 => 3
  | .level4 => 4

/-- Texture types (src `shapePage.ts`): closed union of five string
constants. -/
inductive TextureType where
  | smooth
  | fineRidges
  | ultraFineRidges
  | dots
  | pebbled
deriving DecidableEq, Repr

/-- Landmark types (src `shapePage.ts`). -/
inductive LandmarkType where
  | header
  | nav
  | main
  | sidebar
  | footer
deriving DecidableEq, Repr

/-- Content block types (src `shapePage.ts`). -/
inductive ContentBlockType where
  | heading
  | paragraph
  | list
  | media
  | button
  | link
  | table
  | formField
  | alert
deriving DecidableEq, Repr

/-- Rectangle bounds in normalized coordinates (src `shapePage.ts`). -/
structure Rectangle where
  x : ℝ
  y : ℝ
  width : ℝ
  height : ℝ

/-- Base fields of every tactile primitive (src `shapePage.ts`,
`TactilePrimitive`).  The optional `id?` is modelled as `Option String`. -/
structure TactilePrimitive where
  bounds : Rectangle
  heightTier : HeightTier
  textureType : TextureType
  interactive : Bool
  id : Option String := none

/-- Content block (src `shapePage.ts`, `ContentBlock`): a tactile primitive
with a block type, optional text/image payload and optional nested children
(the optional `children?` array is modelled as a list, `[]` for absent). -/
inductive ContentBlock where
  | mk (prim : TactilePrimitive) (blockType : ContentBlockType)
      (text imageUrl imageAlt : Option String) (children : List ContentBlock)

/-- The `TactilePrimitive` view of a content block. -/
def ContentBlock.prim : ContentBlock → TactilePrimitive
  | .mk p _ _ _ _ _ => p

/-- The nested children of a content block. -/
def ContentBlock.children : ContentBlock → List ContentBlock
  | .mk _ _ _ _ _ c => c

/-- Landmark (src `shapePage.ts`, `Landmark`): a tactile primitive with a
landmark type and contained blocks (the optional `blocks?` array is modelled
as a list, `[]` for absent). -/
structure Landmark where
  prim : TactilePrimitive
  landmarkType : LandmarkType
  blocks : List ContentBlock := []

/-- Shape page (src `shapePage.ts`, `ShapePage`).  The optional standalone
`primitives?` array is modelled as a list, `[]` for absent. -/
structure ShapePage where
  gridSize : ℕ
  landmarks : List Landmark
  primitives : List TactilePrimitive := []

/-- Physics mode (src `config.ts`): `ideal` = instant snap; the other
mode (named for its approximately physical response) performs exponential
easing.  The second constructor is renamed `easing` here because its
source name is reserved in this environment. -/
inductive PhysicsMode where
  | ideal
  | easing
deriving DecidableEq, Repr

/-- Simulation config (src `config.ts`, `SimulationConfig`).  Only the
fields read by the verified functions are carried; the display/pattern mode
strings, web URL and device-body dimensions are unreferenced by them and
omitted. -/
structure SimulationConfig where
  gridSize : ℕ
  pinSpacing : ℝ
  pinWidth : ℝ
  minHeight : ℝ
  maxHeight : ℝ
  amplitude : ℝ
  responseSpeed : ℝ
  physicsMode : PhysicsMode
  colorByHeight : Bool

/-- Tier proportions (src `heightTiers.ts`, the `tierProportions` record):
fixed fractions of the height range per tier. -/
def tierProportion : HeightTier → ℝ
  | .level0 => 0.0
  | .level1 => 0.15
  | .level2 => 0.4
  | .level3 => 0.7
  | .level4 => 1.0

/-- Height for a tier (src `heightTiers.ts`, `getHeightForTier`): `Level0`
returns `minHeight` unscaled; other tiers scale their proportion of the
range by `amplitude` and clamp the result to `[minHeight, maxHeight]`. -/
noncomputable def getHeightForTier (tier : HeightTier) (config : SimulationConfig) : ℝ :=
  let heightRange := config.maxHeight - config.minHeight
  if tier = HeightTier.level0 then
    config.minHeight
  else
    let scaledHeight := config.minHeight + tierProportion tier * heightRange * config.amplitude
    max config.minHeight (min config.maxHeight scaledHeight)

/-- C7: for every config, `getHeightForTier Level0` is exactly `minHeight`
(regardless of amplitude), and for every tier, if `minHeight ≤ maxHeight`
then the returned height lies in `[minHeight, maxHeight]`. -/
theorem c7_height_tier_bounds (config : SimulationConfig) (tier : HeightTier) :
    getHeightForTier HeightTier.level0 config = config.minHeight ∧
    (config.minHeight ≤ config.maxHeight →
      config.minHeight ≤ getHeightForTier tier config ∧
      getHeightForTier tier config ≤ config.maxHeight) := by
  constructor
  · simp [getHeightForTier]
  · intro h
    cases tier <;> simp only [getHeightForTier] <;>
      first
        | exact ⟨le_refl _, h⟩
        | exact ⟨by simp, max_le h (min_le_left _ _)⟩

/-- Concrete configuration used by several witnesses: the repository's
default config (`config.ts`, `defaultConfig`) restricted to the carried
fields. -/
noncomputable def defaultConfig : SimulationConfig where
  gridSize := 50
  pinSpacing := 0.1
  pinWidth := 0.08
  minHeight := 0
  maxHeight := 0.1
  amplitude := 2.0
  responseSpeed := 0.15
  physicsMode := PhysicsMode.easing
  colorByHeight := false

/-- Witness for C7 at the repository's default config and tier `Level3`. -/
theorem c7_height_tier_bounds_witness :
    getHeightForTier HeightTier.level0 defaultConfig = defaultConfig.minHeight ∧
    (defaultConfig.minHeight ≤ getHeightForTier HeightTier.level3 defaultConfig ∧
      getHeightForTier HeightTier.level3 defaultConfig ≤ defaultConfig.maxHeight) :=
  ⟨(c7_height_tier_bounds defaultConfig HeightTier.level3).1,
    (c7_height_tier_bounds defaultConfig HeightTier.level3).2 (by norm_num [defaultConfig])⟩

/-- Texture amplitude (src `textures.ts`, `TEXTURE_AMPLITUDE`): textures
modify height by up to 8% of the height range. -/
noncomputable def TEXTURE_AMPLITUDE : ℝ := 0.08

/-- Smooth texture (src `textures.ts`, `smooth`): returns the constant 0. -/
noncomputable def smooth (_x _y : ℝ) : ℝ := 0

/-- Fine ridges texture (src `textures.ts`, `fineRidges`). -/
noncomputable def fineRidges (x _y : ℝ) (frequency : ℝ := 8) : ℝ :=
  Real.sin (x * Real.pi * frequency) * 0.5 + 0.5

/-- Ultra-fine ridges texture (src `textures.ts`, `ultraFineRidges`). -/
noncomputable def ultraFineRidges (x _y : ℝ) (frequency : ℝ := 20) : ℝ :=
  Real.sin (x * Real.pi * frequency) * 0.3 + 0.5

/-- Dots texture (src `textures.ts`, `dots`): checkerboard-gated circular
falloff.  `Math.floor` on a JS number is `Int.floor`, and the JS remainder
`%` (truncating toward zero) is `Int.tmod`. -/
noncomputable def dots (x y : ℝ) (spacing : ℝ := 0.15) : ℝ :=
  let gridX : ℤ := ⌊x / spacing⌋
  let gridY : ℤ := ⌊y / spacing⌋
  let isDot := (gridX + gridY).tmod 2 = 0
  if ¬ isDot then 0
  else
    let centerX := ((gridX : ℝ) + 0.5) * spacing
    let centerY := ((gridY : ℝ) + 0.5) * spacing
    let dist := Real.sqrt ((x - centerX) ^ 2 + (y - centerY) ^ 2)
    let dotRadius := spacing * 0.3
    if dist < dotRadius then 1.0 - dist / dotRadius else 0

/-- Pebbled texture (src `textures.ts`, `pebbled`): three-octave pseudo-noise
plus an animated diagonal wave, normalized and clamped to `[0, 1]`. -/
noncomputable def pebbled (x y : ℝ) (scale : ℝ := 4) (time : ℝ := 0) : ℝ :=
  let n1 := Real.sin (x * Real.pi * scale * 2.3) * Real.cos (y * Real.pi * scale * 1.7)
  let n2 := Real.sin (x * Real.pi * scale * 3.1) * Real.cos (y * Real.pi * scale * 2.9)
  let n3 := Real.sin (x * Real.pi * scale * 5.7) * Real.cos (y * Real.pi * scale * 4.3)
  let waveSpeed : ℝ := 4.0
  let waveFrequency : ℝ := 3.0
  let waveAmplitude : ℝ := 0.7
  let wave := Real.sin ((x + y) * Real.pi * waveFrequency - time * waveSpeed) * waveAmplitude
  let combined := (n1 + n2 + n3) / 3 + wave
  max 0 (min 1 ((combined + 1) / 2))

/-- Apply texture to a base height (src `textures.ts`, `applyTexture`):
select the texture value, turn it into the signed offset
`(value - 0.5) * TEXTURE_AMPLITUDE * heightRange`, add it to `baseHeight`
and clamp to `[minHeight, maxHeight]`. -/
noncomputable def applyTexture (textureType : TextureType) (x y baseHeight minHeight maxHeight : ℝ)
    (time : ℝ := 0) : ℝ :=
  let textureValue : ℝ :=
    match textureType with
    | TextureType.smooth => smooth x y
    | TextureType.fineRidges => fineRidges x y
    | TextureType.ultraFineRidges => ultraFineRidges x y
    | TextureType.dots => dots x y
    | TextureType.pebbled => pebbled x y 4 time
  let heightRange := maxHeight - minHeight
  let textureOffset := (textureValue - 0.5) * TEXTURE_AMPLITUDE * heightRange
  let finalHeight := baseHeight + textureOffset
  max minHeight (min maxHeight finalHeight)

/-- Point-in-rectangle test (src `tactileRenderer.ts`, `pointInRectangle`):
inclusive on all four edges. -/
def pointInRectangle (x y : ℝ) (rect : Rectangle) : Prop :=
  x ≥ rect.x ∧ x ≤ rect.x + rect.width ∧ y ≥ rect.y ∧ y ≤ rect.y + rect.height

noncomputable instance (x y : ℝ) (rect : Rectangle) : Decidable (pointInRectangle x y rect) := by
  unfold pointInRectangle; infer_instance

/-- All primitives overlapping a point (src `tactileRenderer.ts`,
`getPrimitivesAtPoint`): landmarks whose bounds contain the point; for each
such landmark, its blocks whose bounds contain the point; for each such
block, its direct children whose bounds contain the point; then the
standalone primitives whose bounds contain the point.  The imperative
push-into-array loops are modelled as `flatMap`/`filter` in the same
traversal order. -/
noncomputable def getPrimitivesAtPoint (x y : ℝ) (page : ShapePage) : List TactilePrimitive :=
  let fromLandmarks :=
    page.landmarks.flatMap fun landmark =>
      if pointInRectangle x y landmark.prim.bounds then
        landmark.prim ::
          landmark.blocks.flatMap fun block =>
            if pointInRectangle x y block.prim.bounds then
              block.prim ::
                block.children.flatMap fun child =>
                  if pointInRectangle x y child.prim.bounds then [child.prim] else []
            else []
      else []
  fromLandmarks ++ page.primitives.filter fun primitive => pointInRectangle x y primitive.bounds

/-- Highest-priority primitive at a point (src `tactileRenderer.ts`,
`getTopPrimitive`): stable sort by descending height tier (JS
`Array.prototype.sort` with comparator `(a, b) => b.heightTier - a.heightTier`
is a stable sort, modelled by `List.mergeSort`), then the first element;
`none` for the empty list (the JS early return of `null`). -/
noncomputable def getTopPrimitive (primitives : List TactilePrimitive) : Option TactilePrimitive :=
  (primitives.mergeSort fun a b => b.heightTier.toNat ≤ a.heightTier.toNat).head?

/-- Focus indicator height (src `tactileRenderer.ts`,
`getFocusIndicatorHeight`): `Level4` height when the point lies strictly
within `0.02` of one of the focused primitive's four edges (each edge test
restricted to that edge segment's coordinate range), `0` otherwise or when
nothing is focused. -/
noncomputable def getFocusIndicatorHeight (x y : ℝ) (focusedPrimitive : Option TactilePrimitive)
    (config : SimulationConfig) : ℝ :=
  match focusedPrimitive with
  | none => 0
  | some fp =>
    let bounds := fp.bounds
    let focusThickness : ℝ := 0.02
    let onLeftEdge := |x - bounds.x| < focusThickness ∧
      y ≥ bounds.y ∧ y ≤ bounds.y + bounds.height
    let onRightEdge := |x - (bounds.x + bounds.width)| < focusThickness ∧
      y ≥ bounds.y ∧ y ≤ bounds.y + bounds.height
    let onTopEdge := |y - bounds.y| < focusThickness ∧
      x ≥ bounds.x ∧ x ≤ bounds.x + bounds.width
    let onBottomEdge := |y - (bounds.y + bounds.height)| < focusThickness ∧
      x ≥ bounds.x ∧ x ≤ bounds.x + bounds.width
    if onLeftEdge ∨ onRightEdge ∨ onTopEdge ∨ onBottomEdge then
      getHeightForTier HeightTier.level4 config
    else 0

/-- One cell of `TactileRenderer.renderPage` (src `tactileRenderer.ts`):
normalize the grid coordinates, resolve the top primitive, apply tier height
and texture (background `Level0` height when nothing covers the point), then
overlay the focus indicator with `max` when its height is positive. -/
noncomputable def renderPageCell (page : ShapePage) (config : SimulationConfig)
    (focusedPrimitive : Option TactilePrimitive) (time : ℝ) (x y : ℕ) : ℝ :=
  let nx := (x : ℝ) / ((config.gridSize : ℝ) - 1)
  let ny := (y : ℝ) / ((config.gridSize : ℝ) - 1)
  let primitives := getPrimitivesAtPoint nx ny page
  let height :=
    match getTopPrimitive primitives with
    | some topPrimitive =>
      let baseHeight := getHeightForTier topPrimitive.heightTier config
      applyTexture topPrimitive.textureType nx ny baseHeight
        config.minHeight config.maxHeight time
    | none => getHeightForTier HeightTier.level0 config
  let focusHeight := getFocusIndicatorHeight nx ny focusedPrimitive config
  if focusHeight > 0 then max height focusHeight else height

/-- Render a shape page into a `gridSize × gridSize` height array
(src `tactileRenderer.ts`, `TactileRenderer.renderPage`): the nested
construction loops are modelled as nested `List.range` maps, outer index `x`,
inner index `y`. -/
noncomputable def renderPage (page : ShapePage) (config : SimulationConfig)
    (focusedPrimitive : Option TactilePrimitive := none) (time : ℝ := 0) : List (List ℝ) :=
  (List.range config.gridSize).map fun x =>
    (List.range config.gridSize).map fun y =>
      renderPageCell page config focusedPrimitive time x y

/-- The descending-tier comparator used by `getTopPrimitive`, as the `le`
relation of the stable sort. -/
def tierDescLe (a b : TactilePrimitive) : Bool :=
  b.heightTier.toNat ≤ a.heightTier.toNat

theorem tierDescLe_trans (a b c : TactilePrimitive) :
    tierDescLe a b = true → tierDescLe b c = true → tierDescLe a c = true := by
  simp only [tierDescLe, decide_eq_true_eq]
  omega

theorem tierDescLe_total (a b : TactilePrimitive) :
    (tierDescLe a b || tierDescLe b a) = true := by
  simp only [tierDescLe, Bool.or_eq_true, decide_eq_true_eq]
  omega

theorem getTopPrimitive_def (primitives : List TactilePrimitive) :
    getTopPrimitive primitives = (primitives.mergeSort tierDescLe).head? := rfl

/-- First-encountered primitive of maximal height tier: the behavioural
characterization of `getTopPrimitive` (ties at equal tier go to the element
encountered earlier in the list). -/
def firstMaxTierPrimitive : List TactilePrimitive → Option TactilePrimitive
  | [] => none
  | p :: ps =>
    match firstMaxTierPrimitive ps with
    | none => some p
    | some q => if p.heightTier.toNat < q.heightTier.toNat then some q else some p

theorem firstMaxTierPrimitive_mem :
    ∀ {l : List TactilePrimitive} {q : TactilePrimitive},
      firstMaxTierPrimitive l = some q → q ∈ l := by
  intro l
  induction l with
  | nil => intro q h; simp [firstMaxTierPrimitive] at h
  | cons p ps ih =>
    intro q h
    simp only [firstMaxTierPrimitive] at h
    split at h
    · simp only [Option.some.injEq] at h
      simp [← h]
    · split at h
      · simp only [Option.some.injEq] at h
        subst h
        exact List.mem_cons_of_mem p (ih (by assumption))
      · simp only [Option.some.injEq] at h
        simp [← h]

/-- Bridge lemma: the head of the stable descending-tier sort is the
first-encountered primitive of maximal tier. -/
theorem getTopPrimitive_eq_firstMaxTier (l : List TactilePrimitive) :
    getTopPrimitive l = firstMaxTierPrimitive l := by
  induction l with
  | nil => simp [getTopPrimitive_def, firstMaxTierPrimitive, List.mergeSort_nil]
  | cons a l ih =>
    obtain ⟨l₁, l₂, h1, h2, h3⟩ := List.mergeSort_cons tierDescLe_trans tierDescLe_total a l
    rw [getTopPrimitive_def, h1]
    cases l₁ with
    | nil =>
      simp only [List.nil_append, List.head?_cons]
      simp only [List.nil_append] at h2
      have hsorted := List.sorted_mergeSort tierDescLe_trans tierDescLe_total (a :: l)
      rw [h1, List.nil_append] at hsorted
      cases hl : firstMaxTierPrimitive l with
      | none => simp [firstMaxTierPrimitive, hl]
      | some q =>
        have hq : q ∈ l₂ := by
          have hmem : q ∈ l := firstMaxTierPrimitive_mem hl
          have : q ∈ l.mergeSort tierDescLe := (List.mergeSort_perm l tierDescLe).mem_iff.mpr hmem
          rwa [h2] at this
        have hle : tierDescLe a q = true := List.rel_of_pairwise_cons hsorted hq
        simp only [tierDescLe, decide_eq_true_eq] at hle
        simp only [firstMaxTierPrimitive, hl]
        rw [if_neg (by omega)]
    | cons c t =>
      simp only [List.cons_append, List.head?_cons]
      have hc : c ∈ c :: t := List.mem_cons_self c t
      have hnle := h3 c hc
      simp only [Bool.not_eq_eq_eq_not, Bool.not_true, tierDescLe,
        decide_eq_false_iff_not, not_le] at hnle
      have hfl : firstMaxTierPrimitive l = some c := by
        rw [← ih, getTopPrimitive_def, h2]
        simp
      simp only [firstMaxTierPrimitive, hfl]
      rw [if_pos hnle]

/-- Rectangle covering the whole normalized grid. -/
noncomputable def fullGridBounds : Rectangle where
  x := 0
  y := 0
  width := 1
  height := 1

/-- A full-grid `Level2` primitive with fine-ridges texture. -/
noncomputable def primRidged : TactilePrimitive where
  bounds := fullGridBounds
  heightTier := HeightTier.level2
  textureType := TextureType.fineRidges
  interactive := false

/-- A full-grid `Level2` primitive with smooth texture. -/
noncomputable def primSmooth : TactilePrimitive where
  bounds := fullGridBounds
  heightTier := HeightTier.level2
  textureType := TextureType.smooth
  interactive := false

/-- A page with two overlapping equal-tier landmarks: the ridged one is
declared first, the smooth one second. -/
noncomputable def pageTwoEqualTier : ShapePage where
  gridSize := 2
  landmarks :=
    [{ prim := primRidged, landmarkType := LandmarkType.main },
     { prim := primSmooth, landmarkType := LandmarkType.sidebar }]

/-- A small test configuration with unit height range. -/
noncomputable def cfgTie : SimulationConfig where
  gridSize := 2
  pinSpacing := 0.1
  pinWidth := 0.08
  minHeight := 0
  maxHeight := 1
  amplitude := 1
  responseSpeed := 0.15
  physicsMode := PhysicsMode.ideal
  colorByHeight := false

/-- C1 (amended): at a point covered by one or more primitives, the height
produced by `renderPage` (no focus) is the tier-plus-texture height of the
first-encountered primitive of maximal tier; ties at equal maximal tier are
resolved in favour of the EARLIER-declared primitive, because the stable
descending sort keeps equal-tier elements in traversal order and the code
takes `sorted[0]`. -/
theorem c1_equal_tier_first_encountered (page : ShapePage) (config : SimulationConfig)
    (time : ℝ) (x y : ℕ) (p : TactilePrimitive)
    (h : firstMaxTierPrimitive
        (getPrimitivesAtPoint ((x : ℝ) / ((config.gridSize : ℝ) - 1))
          ((y : ℝ) / ((config.gridSize : ℝ) - 1)) page) = some p) :
    renderPageCell page config none time x y =
      applyTexture p.textureType ((x : ℝ) / ((config.gridSize : ℝ) - 1))
        ((y : ℝ) / ((config.gridSize : ℝ) - 1))
        (getHeightForTier p.heightTier config) config.minHeight config.maxHeight time := by
  simp only [renderPageCell, getTopPrimitive_eq_firstMaxTier, h, getFocusIndicatorHeight]
  norm_num

/-- Witness for C1 on the two-landmark page: the first-declared ridged
landmark wins the equal-tier tie at the origin cell. -/
theorem c1_equal_tier_first_encountered_witness :
    renderPageCell pageTwoEqualTier cfgTie none 0 0 0 =
      applyTexture primRidged.textureType (((0 : ℕ) : ℝ) / ((cfgTie.gridSize : ℝ) - 1))
        (((0 : ℕ) : ℝ) / ((cfgTie.gridSize : ℝ) - 1))
        (getHeightForTier primRidged.heightTier cfgTie) cfgTie.minHeight cfgTie.maxHeight 0 := by
  have h : firstMaxTierPrimitive
      (getPrimitivesAtPoint (((0 : ℕ) : ℝ) / ((cfgTie.gridSize : ℝ) - 1))
        (((0 : ℕ) : ℝ) / ((cfgTie.gridSize : ℝ) - 1)) pageTwoEqualTier) = some primRidged := by
    norm_num [getPrimitivesAtPoint, pointInRectangle, pageTwoEqualTier, primRidged, primSmooth,
      cfgTie, firstMaxTierPrimitive, fullGridBounds, HeightTier.toNat]
  exact c1_equal_tier_first_encountered pageTwoEqualTier cfgTie 0 0 0 primRidged h

/-- Counterexample to C1 as stated: on `pageTwoEqualTier` the rendered
height at cell (0,0) is the FIRST-declared ridged landmark's height `0.4`,
not the later-declared smooth landmark's height `0.36`. -/
theorem c1_counterexample :
    renderPageCell pageTwoEqualTier cfgTie none 0 0 0 = 0.4 ∧
    applyTexture TextureType.smooth 0 0 (getHeightForTier HeightTier.level2 cfgTie)
      cfgTie.minHeight cfgTie.maxHeight 0 = 0.36 ∧
    (0.4 : ℝ) ≠ 0.36 := by
  refine ⟨?_, ?_, by norm_num⟩
  · have h : firstMaxTierPrimitive
        (getPrimitivesAtPoint (((0 : ℕ) : ℝ) / ((cfgTie.gridSize : ℝ) - 1))
          (((0 : ℕ) : ℝ) / ((cfgTie.gridSize : ℝ) - 1)) pageTwoEqualTier) = some primRidged := by
      norm_num [getPrimitivesAtPoint, pointInRectangle, pageTwoEqualTier, primRidged, primSmooth,
        cfgTie, firstMaxTierPrimitive, fullGridBounds, HeightTier.toNat]
    simp only [renderPageCell, getTopPrimitive_eq_firstMaxTier, h, getFocusIndicatorHeight]
    norm_num +decide [applyTexture, fineRidges, primRidged, TEXTURE_AMPLITUDE, getHeightForTier,
      tierProportion, cfgTie, Real.sin_zero, max_def, min_def]
  · norm_num +decide [applyTexture, smooth, TEXTURE_AMPLITUDE, getHeightForTier, tierProportion,
      cfgTie, max_def, min_def]

/-- A page with a single full-grid `Level2`/`Smooth` landmark (the C2
round-trip scenario). -/
noncomputable def pageLevel2Smooth : ShapePage where
  gridSize := 2
  landmarks := [{ prim := primSmooth, landmarkType := LandmarkType.main }]

/-- C2 (code evaluation at the failing input): on a page with a single
full-grid `Level2`/`Smooth` landmark and no focus, every cell is
`0.36 = heightForTier(Level2) - 0.04 * heightRange`, NOT the claimed
`heightForTier(Level2) = 0.4`: `smooth` returns `0`, and `applyTexture`
turns texture value `v` into offset `(v - 0.5) * 0.08 * heightRange`, so
the Smooth texture subtracts 4% of the height range instead of adding 0. -/
theorem c2_smooth_lowers_by_four_percent :
    renderPage pageLevel2Smooth cfgTie none 0 =
      [[0.36, 0.36], [0.36, 0.36]] ∧
    getHeightForTier HeightTier.level2 cfgTie = 0.4 ∧
    (0.36 : ℝ) ≠ 0.4 := by
  have hcell : ∀ x y : ℕ, x < 2 → y < 2 →
      renderPageCell pageLevel2Smooth cfgTie none 0 x y = 0.36 := by
    intro x y hx hy
    have hx1 : (x : ℝ) ≤ 1 := by exact_mod_cast Nat.lt_succ_iff.mp hx
    have hy1 : (y : ℝ) ≤ 1 := by exact_mod_cast Nat.lt_succ_iff.mp hy
    have hx0 : (0 : ℝ) ≤ (x : ℝ) := Nat.cast_nonneg x
    have hy0 : (0 : ℝ) ≤ (y : ℝ) := Nat.cast_nonneg y
    have hargx : ((x : ℝ) / ((cfgTie.gridSize : ℝ) - 1)) = (x : ℝ) := by norm_num [cfgTie]
    have hargy : ((y : ℝ) / ((cfgTie.gridSize : ℝ) - 1)) = (y : ℝ) := by norm_num [cfgTie]
    have h : firstMaxTierPrimitive
        (getPrimitivesAtPoint ((x : ℝ) / ((cfgTie.gridSize : ℝ) - 1))
          ((y : ℝ) / ((cfgTie.gridSize : ℝ) - 1)) pageLevel2Smooth) = some primSmooth := by
      rw [hargx, hargy]
      have hin : pointInRectangle (x : ℝ) (y : ℝ) fullGridBounds := by
        refine ⟨by simp [fullGridBounds, hx0], ?_, by simp [fullGridBounds, hy0], ?_⟩
        · simpa [fullGridBounds] using hx1
        · simpa [fullGridBounds] using hy1
      simp [getPrimitivesAtPoint, pageLevel2Smooth, primSmooth, hin, firstMaxTierPrimitive]
    simp only [renderPageCell, getTopPrimitive_eq_firstMaxTier, h, getFocusIndicatorHeight]
    norm_num +decide [applyTexture, smooth, primSmooth, TEXTURE_AMPLITUDE, getHeightForTier,
      tierProportion, cfgTie, max_def, min_def]
  refine ⟨?_, ?_, by norm_num⟩
  · have hg : cfgTie.gridSize = 2 := rfl
    have h00 := hcell 0 0 (by norm_num) (by norm_num)
    have h01 := hcell 0 1 (by norm_num) (by norm_num)
    have h10 := hcell 1 0 (by norm_num) (by norm_num)
    have h11 := hcell 1 1 (by norm_num) (by norm_num)
    simp [renderPage, hg, List.range_succ, h00, h01, h10, h11]
  · norm_num +decide [getHeightForTier, tierProportion, cfgTie, max_def, min_def]

/-- Membership in an `if c then l else []` list. -/
theorem mem_ite_nil_right {α : Type} {c : Prop} [Decidable c] {l : List α} {a : α} :
    a ∈ (if c then l else []) ↔ c ∧ a ∈ l := by
  split <;> simp_all

/-- C3 (amended): `getPrimitivesAtPoint` returns a landmark iff its own
rectangle contains the point; a block iff the point is in its own AND its
landmark's rectangle; a block child iff the point is in its own AND its
block's AND its landmark's rectangles; and a standalone primitive iff its
own rectangle contains the point.  Containment of the parent rectangle is
therefore required for nested primitives, contrary to the original claim. -/
theorem c3_primitives_at_point_membership (x y : ℝ) (page : ShapePage) (p : TactilePrimitive) :
    p ∈ getPrimitivesAtPoint x y page ↔
      ((∃ landmark ∈ page.landmarks, pointInRectangle x y landmark.prim.bounds ∧
        (p = landmark.prim ∨
         ∃ block ∈ landmark.blocks, pointInRectangle x y block.prim.bounds ∧
           (p = block.prim ∨
            ∃ child ∈ block.children, pointInRectangle x y child.prim.bounds ∧
              p = child.prim))) ∨
       (p ∈ page.primitives ∧ pointInRectangle x y p.bounds)) := by
  simp only [getPrimitivesAtPoint, List.mem_append, List.mem_flatMap, mem_ite_nil_right,
    List.mem_cons, List.mem_singleton, List.mem_filter, decide_eq_true_eq,
    List.mem_nil_iff, or_false]

/-- The block of the C3 counterexample: its rectangle is far away from its
parent landmark's rectangle. -/
noncomputable def blockFar : ContentBlock :=
  ContentBlock.mk
    { bounds := { x := 0.5, y := 0.5, width := 0.2, height := 0.2 },
      heightTier := HeightTier.level2, textureType := TextureType.smooth,
      interactive := true }
    ContentBlockType.paragraph none none none []

/-- The landmark of the C3 counterexample: a small rectangle near the
origin whose contained block lies outside it. -/
noncomputable def landmarkSmall : Landmark where
  prim :=
    { bounds := { x := 0, y := 0, width := 0.1, height := 0.1 },
      heightTier := HeightTier.level1, textureType := TextureType.smooth,
      interactive := false }
  landmarkType := LandmarkType.header
  blocks := [blockFar]

/-- Page for the C3 counterexample. -/
noncomputable def pageNested : ShapePage where
  gridSize := 10
  landmarks := [landmarkSmall]

/-- Counterexample to C3 as stated: the point `(0.6, 0.6)` lies inside the
block's own rectangle, yet `getPrimitivesAtPoint` returns the empty list,
because the block's parent landmark does not contain the point. -/
theorem c3_counterexample :
    pointInRectangle 0.6 0.6 blockFar.prim.bounds ∧
    getPrimitivesAtPoint 0.6 0.6 pageNested = [] := by
  constructor
  · norm_num [pointInRectangle, blockFar, ContentBlock.prim]
  · have hout : ¬ pointInRectangle 0.6 0.6 landmarkSmall.prim.bounds := by
      norm_num [pointInRectangle, landmarkSmall]
    simp [getPrimitivesAtPoint, pageNested, hout]

theorem getHeightForTier_bounds (tier : HeightTier) (config : SimulationConfig)
    (h : config.minHeight ≤ config.maxHeight) :
    config.minHeight ≤ getHeightForTier tier config ∧
    getHeightForTier tier config ≤ config.maxHeight := by
  by_cases htier : tier = HeightTier.level0
  · simp only [getHeightForTier, if_pos htier]
    exact ⟨le_refl _, h⟩
  · simp only [getHeightForTier, if_neg htier]
    exact ⟨le_max_left _ _, max_le h (min_le_left _ _)⟩

theorem applyTexture_bounds (textureType : TextureType) (x y baseHeight mn mx time : ℝ)
    (h : mn ≤ mx) :
    mn ≤ applyTexture textureType x y baseHeight mn mx time ∧
    applyTexture textureType x y baseHeight mn mx time ≤ mx := by
  simp only [applyTexture]
  exact ⟨le_max_left _ _, max_le h (min_le_left _ _)⟩

theorem getFocusIndicatorHeight_none (x y : ℝ) (config : SimulationConfig) :
    getFocusIndicatorHeight x y none config = 0 := rfl

theorem getFocusIndicatorHeight_cases (x y : ℝ) (fp : Option TactilePrimitive)
    (config : SimulationConfig) :
    getFocusIndicatorHeight x y fp config = 0 ∨
    getFocusIndicatorHeight x y fp config = getHeightForTier HeightTier.level4 config := by
  cases fp with
  | none => exact Or.inl rfl
  | some p =>
    simp only [getFocusIndicatorHeight]
    split
    · exact Or.inr rfl
    · exact Or.inl rfl

theorem renderPageCell_bounds (page : ShapePage) (config : SimulationConfig)
    (fp : Option TactilePrimitive) (time : ℝ) (x y : ℕ)
    (h : config.minHeight ≤ config.maxHeight) :
    config.minHeight ≤ renderPageCell page config fp time x y ∧
    renderPageCell page config fp time x y ≤ config.maxHeight := by
  have hfocus := getFocusIndicatorHeight_cases ((x : ℝ) / ((config.gridSize : ℝ) - 1))
    ((y : ℝ) / ((config.gridSize : ℝ) - 1)) fp config
  cases htop : getTopPrimitive (getPrimitivesAtPoint ((x : ℝ) / ((config.gridSize : ℝ) - 1))
      ((y : ℝ) / ((config.gridSize : ℝ) - 1)) page) with
  | none =>
    simp only [renderPageCell, htop]
    split
    · rename_i hpos
      rcases hfocus with hf | hf
      · rw [hf] at hpos
        exact absurd hpos (lt_irrefl 0)
      · rw [hf]
        exact ⟨le_trans (getHeightForTier_bounds _ _ h).1 (le_max_left _ _),
          max_le (getHeightForTier_bounds _ _ h).2 (getHeightForTier_bounds _ _ h).2⟩
    · exact getHeightForTier_bounds _ _ h
  | some p =>
    simp only [renderPageCell, htop]
    split
    · rename_i hpos
      rcases hfocus with hf | hf
      · rw [hf] at hpos
        exact absurd hpos (lt_irrefl 0)
      · rw [hf]
        exact ⟨le_trans (applyTexture_bounds _ _ _ _ _ _ _ h).1 (le_max_left _ _),
          max_le (applyTexture_bounds _ _ _ _ _ _ _ h).2 (getHeightForTier_bounds _ _ h).2⟩
    · exact applyTexture_bounds _ _ _ _ _ _ _ h

/-- C4: for every page, focus, time, and config with `minHeight ≤ maxHeight`
and `gridSize ≥ 1`, `renderPage` yields a fully defined
`gridSize × gridSize` array whose every cell lies in
`[minHeight, maxHeight]` (in this real-number model, every cell is a real
number, so NaN/undefined cannot occur; the clamping establishes the
bounds). -/
theorem c4_render_page_defined_in_bounds (page : ShapePage) (config : SimulationConfig)
    (fp : Option TactilePrimitive) (time : ℝ)
    (hrange : config.minHeight ≤ config.maxHeight) (_hgrid : 1 ≤ config.gridSize) :
    (renderPage page config fp time).length = config.gridSize ∧
    ∀ row ∈ renderPage page config fp time,
      row.length = config.gridSize ∧
      ∀ hgt ∈ row, config.minHeight ≤ hgt ∧ hgt ≤ config.maxHeight := by
  refine ⟨by simp [renderPage], ?_⟩
  intro row hrow
  simp only [renderPage, List.mem_map] at hrow
  obtain ⟨xi, _hxi, rfl⟩ := hrow
  refine ⟨by simp, ?_⟩
  intro hgt hh
  simp only [List.mem_map] at hh
  obtain ⟨yi, _hyi, rfl⟩ := hh
  exact renderPageCell_bounds page config fp time xi yi hrange

/-- Witness for C4 at the nested demo page and the default config. -/
theorem c4_render_page_defined_in_bounds_witness :
    (renderPage pageNested defaultConfig none 0).length = defaultConfig.gridSize ∧
    ∀ row ∈ renderPage pageNested defaultConfig none 0,
      row.length = defaultConfig.gridSize ∧
      ∀ hgt ∈ row, defaultConfig.minHeight ≤ hgt ∧ hgt ≤ defaultConfig.maxHeight :=
  c4_render_page_defined_in_bounds pageNested defaultConfig none 0
    (by norm_num [defaultConfig]) (by norm_num [defaultConfig])

/-- The focus-ring band of a primitive: within `0.02` of one of its four
edges, each edge test restricted to that edge's coordinate range (the
disjunction tested by `getFocusIndicatorHeight`). -/
def onFocusRing (x y : ℝ) (fp : TactilePrimitive) : Prop :=
  (|x - fp.bounds.x| < 0.02 ∧ y ≥ fp.bounds.y ∧ y ≤ fp.bounds.y + fp.bounds.height) ∨
  (|x - (fp.bounds.x + fp.bounds.width)| < 0.02 ∧
    y ≥ fp.bounds.y ∧ y ≤ fp.bounds.y + fp.bounds.height) ∨
  (|y - fp.bounds.y| < 0.02 ∧ x ≥ fp.bounds.x ∧ x ≤ fp.bounds.x + fp.bounds.width) ∨
  (|y - (fp.bounds.y + fp.bounds.height)| < 0.02 ∧
    x ≥ fp.bounds.x ∧ x ≤ fp.bounds.x + fp.bounds.width)

noncomputable instance (x y : ℝ) (fp : TactilePrimitive) : Decidable (onFocusRing x y fp) := by
  unfold onFocusRing
  infer_instance

theorem getFocusIndicatorHeight_some (x y : ℝ) (fp : TactilePrimitive)
    (config : SimulationConfig) :
    getFocusIndicatorHeight x y (some fp) config =
      if onFocusRing x y fp then getHeightForTier HeightTier.level4 config else 0 := by
  simp only [getFocusIndicatorHeight, onFocusRing]

/-- The cell with a focused primitive equals the unfocused cell, overlaid
with the `Level4` ring height via `max` exactly when the point is on the
ring band and the `Level4` height is positive. -/
theorem renderPageCell_focus_eq (page : ShapePage) (config : SimulationConfig)
    (fp : TactilePrimitive) (time : ℝ) (x y : ℕ) :
    renderPageCell page config (some fp) time x y =
      if onFocusRing ((x : ℝ) / ((config.gridSize : ℝ) - 1))
          ((y : ℝ) / ((config.gridSize : ℝ) - 1)) fp ∧
          0 < getHeightForTier HeightTier.level4 config then
        max (renderPageCell page config none time x y) (getHeightForTier HeightTier.level4 config)
      else renderPageCell page config none time x y := by
  have hfoc := getFocusIndicatorHeight_some ((x : ℝ) / ((config.gridSize : ℝ) - 1))
    ((y : ℝ) / ((config.gridSize : ℝ) - 1)) fp config
  by_cases hring : onFocusRing ((x : ℝ) / ((config.gridSize : ℝ) - 1))
      ((y : ℝ) / ((config.gridSize : ℝ) - 1)) fp
  · rw [if_pos hring] at hfoc
    by_cases hpos : 0 < getHeightForTier HeightTier.level4 config
    · rw [if_pos ⟨hring, hpos⟩]
      simp only [renderPageCell, hfoc, getFocusIndicatorHeight_none]
      rw [if_pos hpos, if_neg (lt_irrefl 0)]
    · rw [if_neg (fun hc => hpos hc.2)]
      simp only [renderPageCell, hfoc, getFocusIndicatorHeight_none]
      rw [if_neg hpos, if_neg (lt_irrefl 0)]
  · rw [if_neg hring] at hfoc
    rw [if_neg (fun hc => hring hc.1)]
    simp only [renderPageCell, hfoc, getFocusIndicatorHeight_none]

/-- C5 (amended): provided `getHeightForTier Level4 config > 0` (true for
every config with `minHeight ≥ 0 < amplitude` and `minHeight < maxHeight`,
in particular the repository default), every cell whose normalized point
lies within `0.02` of the focused primitive's perimeter receives at least
the `Level4` height; cells off the band are exactly as without focus; and
the focus ring never lowers the underlying height. -/
theorem c5_focus_ring_raises (page : ShapePage) (config : SimulationConfig)
    (fp : TactilePrimitive) (time : ℝ) (x y : ℕ)
    (hpos : 0 < getHeightForTier HeightTier.level4 config) :
    (onFocusRing ((x : ℝ) / ((config.gridSize : ℝ) - 1))
        ((y : ℝ) / ((config.gridSize : ℝ) - 1)) fp →
      getHeightForTier HeightTier.level4 config ≤
        renderPageCell page config (some fp) time x y) ∧
    (¬ onFocusRing ((x : ℝ) / ((config.gridSize : ℝ) - 1))
        ((y : ℝ) / ((config.gridSize : ℝ) - 1)) fp →
      renderPageCell page config (some fp) time x y =
        renderPageCell page config none time x y) ∧
    renderPageCell page config none time x y ≤
      renderPageCell page config (some fp) time x y := by
  have hkey := renderPageCell_focus_eq page config fp time x y
  refine ⟨?_, ?_, ?_⟩
  · intro hring
    rw [hkey, if_pos ⟨hring, hpos⟩]
    exact le_max_right _ _
  · intro hring
    rw [hkey, if_neg (fun hc => hring hc.1)]
  · rw [hkey]
    split
    · exact le_max_left _ _
    · exact le_refl _

/-- Witness for C5 on the smooth page with the ridged primitive focused. -/
theorem c5_focus_ring_raises_witness :
    (onFocusRing (((0 : ℕ) : ℝ) / ((cfgTie.gridSize : ℝ) - 1))
        (((0 : ℕ) : ℝ) / ((cfgTie.gridSize : ℝ) - 1)) primRidged →
      getHeightForTier HeightTier.level4 cfgTie ≤
        renderPageCell pageLevel2Smooth cfgTie (some primRidged) 0 0 0) ∧
    (¬ onFocusRing (((0 : ℕ) : ℝ) / ((cfgTie.gridSize : ℝ) - 1))
        (((0 : ℕ) : ℝ) / ((cfgTie.gridSize : ℝ) - 1)) primRidged →
      renderPageCell pageLevel2Smooth cfgTie (some primRidged) 0 0 0 =
        renderPageCell pageLevel2Smooth cfgTie none 0 0 0) ∧
    renderPageCell pageLevel2Smooth cfgTie none 0 0 0 ≤
      renderPageCell pageLevel2Smooth cfgTie (some primRidged) 0 0 0 :=
  c5_focus_ring_raises pageLevel2Smooth cfgTie primRidged 0 0 0
    (by norm_num +decide [getHeightForTier, tierProportion, cfgTie, max_def, min_def])

/-- Config with a negative height range position: `Level4` height clamps to
`0`, so the `focusHeight > 0` guard never fires. -/
noncomputable def cfgNeg : SimulationConfig where
  gridSize := 6
  pinSpacing := 0.1
  pinWidth := 0.08
  minHeight := -10
  maxHeight := 0
  amplitude := 1
  responseSpeed := 0.15
  physicsMode := PhysicsMode.ideal
  colorByHeight := false

/-- The focused primitive of the C5 counterexample, with the bounds named
in the spec's focus-ring scenario. -/
noncomputable def fpFocus : TactilePrimitive where
  bounds := { x := 0.2, y := 0.2, width := 0.3, height := 0.3 }
  heightTier := HeightTier.level2
  textureType := TextureType.smooth
  interactive := true

/-- A page with no landmarks and no standalone primitives. -/
noncomputable def pageEmpty : ShapePage where
  gridSize := 6
  landmarks := []

/-- Counterexample to C5 as stated (for EVERY config): with
`minHeight = -10`, `maxHeight = 0`, `amplitude = 1`, the `Level4` height is
`0`, the `focusHeight > 0` guard does not fire, and the cell at normalized
point `(0.2, 0.2)` — on the focused primitive's left edge band — keeps the
background height `-10`, strictly below the `Level4` height. -/
theorem c5_counterexample :
    onFocusRing (((1 : ℕ) : ℝ) / ((cfgNeg.gridSize : ℝ) - 1))
      (((1 : ℕ) : ℝ) / ((cfgNeg.gridSize : ℝ) - 1)) fpFocus ∧
    renderPageCell pageEmpty cfgNeg (some fpFocus) 0 1 1 = -10 ∧
    getHeightForTier HeightTier.level4 cfgNeg = 0 ∧
    ¬ (getHeightForTier HeightTier.level4 cfgNeg ≤
        renderPageCell pageEmpty cfgNeg (some fpFocus) 0 1 1) := by
  have harg : (((1 : ℕ) : ℝ) / ((cfgNeg.gridSize : ℝ) - 1)) = 0.2 := by
    norm_num [cfgNeg]
  have hL4 : getHeightForTier HeightTier.level4 cfgNeg = 0 := by
    norm_num +decide [getHeightForTier, tierProportion, cfgNeg, max_def, min_def]
  have hring : onFocusRing (((1 : ℕ) : ℝ) / ((cfgNeg.gridSize : ℝ) - 1))
      (((1 : ℕ) : ℝ) / ((cfgNeg.gridSize : ℝ) - 1)) fpFocus := by
    rw [harg]
    left
    norm_num [fpFocus]
  have hcell : renderPageCell pageEmpty cfgNeg (some fpFocus) 0 1 1 = -10 := by
    have hprims : getPrimitivesAtPoint (((1 : ℕ) : ℝ) / ((cfgNeg.gridSize : ℝ) - 1))
        (((1 : ℕ) : ℝ) / ((cfgNeg.gridSize : ℝ) - 1)) pageEmpty = [] := by
      simp [getPrimitivesAtPoint, pageEmpty]
    have hfh : getFocusIndicatorHeight (((1 : ℕ) : ℝ) / ((cfgNeg.gridSize : ℝ) - 1))
        (((1 : ℕ) : ℝ) / ((cfgNeg.gridSize : ℝ) - 1)) (some fpFocus) cfgNeg = 0 := by
      rw [getFocusIndicatorHeight_some, if_pos hring, hL4]
    simp only [renderPageCell, hprims, getTopPrimitive_eq_firstMaxTier,
      firstMaxTierPrimitive, hfh]
    norm_num [getHeightForTier, cfgNeg]
  exact ⟨hring, hcell, hL4, by rw [hcell, hL4]; norm_num⟩

/-- Navigation mode (src `navigation.ts`): `region` or `block`. -/
inductive NavigationMode where
  | region
  | block
deriving DecidableEq, Repr

/-- Navigation manager state (src `navigation.ts`, `NavigationManager`):
mode, current landmark index, current block index, and the page being
navigated (`null` modelled as `none`).  Indices are JS numbers that the
class keeps non-negative; they are modelled as `ℕ`. -/
structure NavigationManager where
  mode : NavigationMode := NavigationMode.region
  currentLandmarkIndex : ℕ := 0
  currentBlockIndex : ℕ := 0
  shapePage : Option ShapePage := none

/-- Landmarks of the current page (src `navigation.ts`, `getLandmarks`):
`this.shapePage?.landmarks || []`. -/
def NavigationManager.getLandmarks (nav : NavigationManager) : List Landmark :=
  match nav.shapePage with
  | some page => page.landmarks
  | none => []

/-- Blocks of the current landmark (src `navigation.ts`,
`getCurrentLandmarkBlocks`): empty when there are no landmarks; otherwise
`landmarks[currentLandmarkIndex]?.blocks || []` (an out-of-range index
yields `[]`). -/
def NavigationManager.getCurrentLandmarkBlocks (nav : NavigationManager) : List ContentBlock :=
  let landmarks := nav.getLandmarks
  if landmarks.length = 0 then []
  else
    match landmarks[nav.currentLandmarkIndex]? with
    | some currentLandmark => currentLandmark.blocks
    | none => []

/-- Replace the navigated page (src `navigation.ts`, `setShapePage`):
resets both indices to 0. -/
def NavigationManager.setShapePage (nav : NavigationManager) (page : Option ShapePage) :
    NavigationManager :=
  { nav with shapePage := page, currentLandmarkIndex := 0, currentBlockIndex := 0 }

/-- Move to the previous block (src `navigation.ts`, `previousBlock`):
returns `false` and leaves the state unchanged unless the mode is `block`
and the current landmark has blocks; otherwise decrements the block index
circularly (the JS `(i - 1 + len) % len` computed in `ℤ`) and returns
`true`.  The returned pair is (JS return value, state after the call). -/
def NavigationManager.previousBlock (nav : NavigationManager) : Bool × NavigationManager :=
  if nav.mode ≠ NavigationMode.block then (false, nav)
  else
    let blocks := nav.getCurrentLandmarkBlocks
    if blocks.length = 0 then (false, nav)
    else
      (true, { nav with currentBlockIndex :=
        (((nav.currentBlockIndex : ℤ) - 1 + blocks.length) % blocks.length).toNat })

/-- C9: whenever the mode is `region`, or no page is loaded, or the current
landmark has zero blocks, `previousBlock` returns `false` and leaves the
entire navigation state unchanged. -/
theorem c9_previous_block_noop (nav : NavigationManager)
    (h : nav.mode = NavigationMode.region ∨ nav.shapePage = none ∨
      nav.getCurrentLandmarkBlocks = []) :
    nav.previousBlock = (false, nav) := by
  by_cases hm : nav.mode = NavigationMode.block
  · rcases h with h | h | h
    · rw [h] at hm
      simp at hm
    · have hb : nav.getCurrentLandmarkBlocks = [] := by
        simp [NavigationManager.getCurrentLandmarkBlocks, NavigationManager.getLandmarks, h]
      simp [NavigationManager.previousBlock, hm, hb]
    · simp [NavigationManager.previousBlock, hm, h]
  · simp [NavigationManager.previousBlock, hm]

/-- The freshly constructed navigation manager: `region` mode, both indices
`0`, no page. -/
def navInitial : NavigationManager := {}

/-- Witness for C9 at the initial navigation state. -/
theorem c9_previous_block_noop_witness :
    navInitial.previousBlock = (false, navInitial) :=
  c9_previous_block_noop navInitial (Or.inl rfl)

/-- The three height-array generations owned by the pin field
(src `PinField` in `navigation.ts`): `number[][]` arrays modelled as total
functions on grid coordinates (the `?? minHeight` fallbacks for missing
entries vanish under this total representation). -/
structure PinFieldState where
  targetHeights : ℕ → ℕ → ℝ
  currentHeights : ℕ → ℕ → ℝ
  previousHeights : ℕ → ℕ → ℝ

/-- Corner test (src `PinField.isCorner`): the four grid corners are
excluded from actuation. -/
def isCorner (config : SimulationConfig) (x y : ℕ) : Prop :=
  let lastIndex := config.gridSize - 1
  (x = 0 ∧ y = 0) ∨ (x = 0 ∧ y = lastIndex) ∨
  (x = lastIndex ∧ y = 0) ∨ (x = lastIndex ∧ y = lastIndex)

instance (config : SimulationConfig) (x y : ℕ) : Decidable (isCorner config x y) := by
  unfold isCorner
  infer_instance

/-- Easing step (src `PinField.updateCurrentHeights`): for every in-grid
cell, `ideal` mode assigns the target directly; the easing mode moves the
current height toward the target by `responseSpeed`. -/
noncomputable def updateCurrentHeights (config : SimulationConfig) (st : PinFieldState) :
    PinFieldState :=
  { st with currentHeights := fun x y =>
      if x < config.gridSize ∧ y < config.gridSize then
        if config.physicsMode = PhysicsMode.ideal then st.targetHeights x y
        else st.currentHeights x y +
          (st.targetHeights x y - st.currentHeights x y) * config.responseSpeed
      else st.currentHeights x y }

/-- Dirty test of the publish step (src `PinField.updatePinPositions`): a
non-corner pin is dirty when its current height moved more than `0.001`
from the last published height. -/
def pinDirty (config : SimulationConfig) (st : PinFieldState) (x y : ℕ) : Prop :=
  ¬ isCorner config x y ∧ |st.currentHeights x y - st.previousHeights x y| > 0.001

noncomputable instance (config : SimulationConfig) (st : PinFieldState) (x y : ℕ) :
    Decidable (pinDirty config st x y) := by
  unfold pinDirty
  infer_instance

/-- Publish step (src `PinField.updatePinPositions`): every in-grid dirty
pin gets its instance transform recomputed and its previous height updated
to the current height; clean pins keep their previous height. -/
noncomputable def updatePinPositions (config : SimulationConfig) (st : PinFieldState) :
    PinFieldState :=
  { st with previousHeights := fun x y =>
      if x < config.gridSize ∧ y < config.gridSize ∧ pinDirty config st x y then
        st.currentHeights x y
      else st.previousHeights x y }

/-- One engine tick (src `PinField.update`): fill the target heights for the
active mode (modelled by the `target` parameter — the claim's hypothesis is
that two consecutive ticks compute the same target array), ease the current
heights, then publish dirty pins. -/
noncomputable def tick (config : SimulationConfig) (target : ℕ → ℕ → ℝ) (st : PinFieldState) :
    PinFieldState :=
  updatePinPositions config (updateCurrentHeights config { st with targetHeights := target })

/-- C6: in `ideal` physics mode, after one tick every non-corner in-grid
pin satisfies `|current - previous| ≤ 0.001`, and a second tick with the
same target marks no pin dirty (so it updates zero instance transforms). -/
theorem c6_ideal_second_tick_no_dirty (config : SimulationConfig) (target : ℕ → ℕ → ℝ)
    (st : PinFieldState) (x y : ℕ)
    (hmode : config.physicsMode = PhysicsMode.ideal)
    (hx : x < config.gridSize) (hy : y < config.gridSize)
    (hc : ¬ isCorner config x y) :
    |(tick config target st).currentHeights x y -
      (tick config target st).previousHeights x y| ≤ 0.001 ∧
    ¬ pinDirty config
      (updateCurrentHeights config { tick config target st with targetHeights := target }) x y := by
  have hcurMid : (updateCurrentHeights config { st with targetHeights := target }).currentHeights
      x y = target x y := by
    simp [updateCurrentHeights, hmode, hx, hy]
  have hcur1 : (tick config target st).currentHeights x y = target x y := by
    simp only [tick, updatePinPositions]
    exact hcurMid
  have hprev1 : |target x y - (tick config target st).previousHeights x y| ≤ 0.001 := by
    simp only [tick, updatePinPositions]
    by_cases hd : pinDirty config (updateCurrentHeights config
        { st with targetHeights := target }) x y
    · rw [if_pos ⟨hx, hy, hd⟩, hcurMid]
      norm_num
    · rw [if_neg (fun hcond => hd hcond.2.2)]
      unfold pinDirty at hd
      rw [hcurMid] at hd
      have hle := not_lt.mp (fun hgt => hd ⟨hc, hgt⟩)
      exact hle
  refine ⟨by rw [hcur1]; exact hprev1, ?_⟩
  intro hdirty
  have hcur2 : (updateCurrentHeights config
      { tick config target st with targetHeights := target }).currentHeights x y = target x y := by
    simp [updateCurrentHeights, hmode, hx, hy]
  unfold pinDirty at hdirty
  rw [hcur2] at hdirty
  exact absurd hdirty.2 (not_lt.mpr hprev1)

/-- A small ideal-mode config on a 3×3 grid (so that the centre pin is not a
corner). -/
noncomputable def cfgIdeal3 : SimulationConfig where
  gridSize := 3
  pinSpacing := 0.1
  pinWidth := 0.08
  minHeight := 0
  maxHeight := 1
  amplitude := 1
  responseSpeed := 0.15
  physicsMode := PhysicsMode.ideal
  colorByHeight := false

/-- An all-zero pin-field state. -/
noncomputable def stZero : PinFieldState where
  targetHeights := fun _ _ => 0
  currentHeights := fun _ _ => 0
  previousHeights := fun _ _ => 0

/-- Witness for C6: centre pin of a 3×3 ideal-mode field stepped twice
toward the constant target 1. -/
theorem c6_ideal_second_tick_no_dirty_witness :
    |(tick cfgIdeal3 (fun _ _ => 1) stZero).currentHeights 1 1 -
      (tick cfgIdeal3 (fun _ _ => 1) stZero).previousHeights 1 1| ≤ 0.001 ∧
    ¬ pinDirty cfgIdeal3
      (updateCurrentHeights cfgIdeal3
        { tick cfgIdeal3 (fun _ _ => 1) stZero with targetHeights := fun _ _ => 1 }) 1 1 :=
  c6_ideal_second_tick_no_dirty cfgIdeal3 (fun _ _ => 1) stZero 1 1 rfl
    (by norm_num [cfgIdeal3]) (by norm_num [cfgIdeal3])
    (by simp [isCorner, cfgIdeal3])

/-- Image render options (src `imageRenderer.ts`, `ImageRenderOptions`),
with the defaulted optional fields. -/
structure ImageRenderOptions where
  minHeight : ℝ
  maxHeight : ℝ
  amplitude : ℝ
  edgeDetection : Bool := true
  contrast : ℝ := 1.5
  frameIndex : ℕ := 0

/-- One pixel of the downscaled canvas read (the RGBA buffer entry
`data[(y*gridSize+x)*4 ..]`; the alpha channel is never read). -/
structure Pixel where
  r : ℝ
  g : ℝ
  b : ℝ

/-- Grayscale-plus-contrast step (src `renderImageAsTactile` /
`processImageElement`): BT.601 luminance normalized to `[0,1]`, then
contrast `clamp((gray - 0.5) * contrast + 0.5, 0, 1)`. -/
noncomputable def grayscaleAt (data : ℕ → ℕ → Pixel) (contrast : ℝ) (x y : ℕ) : ℝ :=
  let p := data x y
  let gray := (0.299 * p.r + 0.587 * p.g + 0.114 * p.b) / 255
  max 0 (min 1 ((gray - 0.5) * contrast + 0.5))

/-- Sobel x-kernel (src `applyEdgeDetection`). -/
noncomputable def sobelX : List (List ℝ) := [[-1, 0, 1], [-2, 0, 2], [-1, 0, 1]]

/-- Sobel y-kernel (src `applyEdgeDetection`). -/
noncomputable def sobelY : List (List ℝ) := [[-1, -2, -1], [0, 0, 0], [1, 2, 1]]

/-- Sobel edge detection (src `imageRenderer.ts`, `applyEdgeDetection`):
3×3 kernels with clamped (nearest-edge) sampling, gradient magnitude
combined with the original luminance as `0.7*magnitude + 0.3*original`,
clamped to `[0,1]`.  The two `+=` accumulation loops are modelled as sums
over the kernel offsets `[-1, 0, 1]`. -/
noncomputable def applyEdgeDetection (grayscale : ℕ → ℕ → ℝ) (gridSize : ℕ) : ℕ → ℕ → ℝ :=
  fun x y =>
    let sample := fun (kx ky : ℤ) =>
      let px := (max 0 (min ((gridSize : ℤ) - 1) ((x : ℤ) + kx))).toNat
      let py := (max 0 (min ((gridSize : ℤ) - 1) ((y : ℤ) + ky))).toNat
      grayscale px py
    let offsets : List ℤ := [-1, 0, 1]
    let gx := (offsets.flatMap fun kx => offsets.map fun ky =>
      sample kx ky * (sobelX.getD (kx + 1).toNat []).getD (ky + 1).toNat 0).sum
    let gy := (offsets.flatMap fun kx => offsets.map fun ky =>
      sample kx ky * (sobelY.getD (kx + 1).toNat []).getD (ky + 1).toNat 0).sum
    let magnitude := Real.sqrt (gx * gx + gy * gy)
    let original := grayscale x y
    let combined := magnitude * 0.7 + original * 0.3
    max 0 (min 1 combined)

/-- Pixel pipeline shared by `renderImageAsTactile` and
`processImageElement`: grayscale and contrast, optional edge detection,
then map value `v` to `clamp(minHeight + v*(maxHeight-minHeight)*amplitude,
minHeight, maxHeight)`. -/
noncomputable def imageHeightsFromData (data : ℕ → ℕ → Pixel) (gridSize : ℕ)
    (options : ImageRenderOptions) : List (List ℝ) :=
  let grayscale := fun x y => grayscaleAt data options.contrast x y
  let heightMap :=
    if options.edgeDetection then applyEdgeDetection grayscale gridSize else grayscale
  let heightRange := options.maxHeight - options.minHeight
  (List.range gridSize).map fun x =>
    (List.range gridSize).map fun y =>
      max options.minHeight
        (min options.maxHeight
          (options.minHeight + heightMap x y * heightRange * options.amplitude))

/-- Error pattern (src `imageRenderer.ts`, `createErrorPattern`): an X of
two diagonal bands at `maxHeight`, the rest at `minHeight`.  JS `Math.abs`
of a difference of grid indices is the `ℤ` absolute difference. -/
noncomputable def createErrorPattern (gridSize : ℕ) (minHeight maxHeight : ℝ) :
    List (List ℝ) :=
  (List.range gridSize).map fun (x : ℕ) =>
    (List.range gridSize).map fun (y : ℕ) =>
      let distFromDiag1 := ((x : ℤ) - (y : ℤ)).natAbs
      let distFromDiag2 := ((x : ℤ) - ((gridSize : ℤ) - 1 - (y : ℤ))).natAbs
      let minDist := min distFromDiag1 distFromDiag2
      if minDist < 2 then maxHeight else minHeight

/-- Outcome of acquiring the image pixels (src `renderImageAsTactile`):
the asynchronous load, the optional GIF settle delay, the canvas draw and
the pixel read (including the one transparent CORS-proxy retry) are
modelled by this parameter — `ok data` when pixel data of the downscaled
image was eventually obtained, `error` when any step of the try-block
threw (unsupported format, network failure after the proxy retry, invalid
dimensions, denied pixel read). -/
inductive ImageLoadOutcome where
  | ok (data : ℕ → ℕ → Pixel)
  | error (message : String)

/-- Load an image and render it as a tactile bitmap (src
`imageRenderer.ts`, `renderImageAsTactile`): the whole body is one
try/catch whose catch returns `createErrorPattern`, so the returned promise
always resolves — modelled as a total function of the load outcome. -/
noncomputable def renderImageAsTactile (outcome : ImageLoadOutcome) (gridSize : ℕ)
    (options : ImageRenderOptions) : List (List ℝ) :=
  match outcome with
  | ImageLoadOutcome.ok data => imageHeightsFromData data gridSize options
  | ImageLoadOutcome.error _ => createErrorPattern gridSize options.minHeight options.maxHeight

/-- C8: `renderImageAsTactile` is total on every load outcome (never
propagates an error), and on every failing outcome it returns the full
`gridSize × gridSize` diagnostic pattern whose cell `(x, y)` is `maxHeight`
exactly when `min(|x-y|, |x-(gridSize-1-y)|) < 2` and `minHeight`
otherwise. -/
theorem c8_error_resolves_with_diagnostic_pattern (message : String) (gridSize : ℕ)
    (options : ImageRenderOptions) (x y : ℕ) (hx : x < gridSize) (hy : y < gridSize) :
    (renderImageAsTactile (ImageLoadOutcome.error message) gridSize options).length = gridSize ∧
    ((renderImageAsTactile (ImageLoadOutcome.error message) gridSize options).getD x []).getD y 0 =
      if min ((x : ℤ) - (y : ℤ)).natAbs ((x : ℤ) - ((gridSize : ℤ) - 1 - (y : ℤ))).natAbs < 2
        then options.maxHeight else options.minHeight := by
  constructor
  · simp [renderImageAsTactile, createErrorPattern]
  · simp [renderImageAsTactile, createErrorPattern, List.getD_eq_getElem?_getD,
      List.getElem?_map, List.getElem?_range hx, List.getElem?_range hy]

/-- Witness for C8 on a 4×4 grid at the off-diagonal cell (0, 2). -/
theorem c8_error_resolves_with_diagnostic_pattern_witness :
    (renderImageAsTactile (ImageLoadOutcome.error "load failed") 4
      { minHeight := 0, maxHeight := 1, amplitude := 1 }).length = 4 ∧
    ((renderImageAsTactile (ImageLoadOutcome.error "load failed") 4
      { minHeight := 0, maxHeight := 1, amplitude := 1 }).getD 0 []).getD 2 0 =
      if min ((0 : ℤ) - (2 : ℤ)).natAbs ((0 : ℤ) - ((4 : ℤ) - 1 - (2 : ℤ))).natAbs < 2
        then (1 : ℝ) else 0 :=
  c8_error_resolves_with_diagnostic_pattern "load failed" 4
    { minHeight := 0, maxHeight := 1, amplitude := 1 } 0 2 (by norm_num) (by norm_num)

/-- Braille dot patterns (src `braille.ts`, `BRAILLE_PATTERNS`): a record
keyed by strings — every key is a single ASCII character — mapping to 6-bit
dot patterns; absent keys are modelled as `none`.  The keys are strings (as
lists of characters) rather than characters because the JS lookup key is
the string produced by `toLowerCase`, which can have more than one
character. -/
def braillePatterns : List Char → Option ℕ
  | [' '] => some 0b000000
  | ['a'] => some 0b100000
  | ['b'] => some 0b110000
  | ['c'] => some 0b100100
  | ['d'] => some 0b100110
  | ['e'] => some 0b100010
  | ['f'] => some 0b110100
  | ['g'] => some 0b110110
  | ['h'] => some 0b110010
  | ['i'] => some 0b010100
  | ['j'] => some 0b010110
  | ['k'] => some 0b101000
  | ['l'] => some 0b111000
  | ['m'] => some 0b101100
  | ['n'] => some 0b101110
  | ['o'] => some 0b101010
  | ['p'] => some 0b111100
  | ['q'] => some 0b111110
  | ['r'] => some 0b111010
  | ['s'] => some 0b011100
  | ['t'] => some 0b011110
  | ['u'] => some 0b101001
  | ['v'] => some 0b111001
  | ['w'] => some 0b010111
  | ['x'] => some 0b101101
  | ['y'] => some 0b101111
  | ['z'] => some 0b101011
  | ['0'] => some 0b010110
  | ['1'] => some 0b100000
  | ['2'] => some 0b110000
  | ['3'] => some 0b100100
  | ['4'] => some 0b100110
  | ['5'] => some 0b100010
  | ['6'] => some 0b110100
  | ['7'] => some 0b110110
  | ['8'] => some 0b110010
  | ['9'] => some 0b010100
  | ['.'] => some 0b010000
  | [','] => some 0b010000
  | ['!'] => some 0b011010
  | ['?'] => some 0b011001
  | ['-'] => some 0b001001
  | ['\''] => some 0b001000
  | _ => none

/-- JS `String.prototype.toLowerCase` applied to a single code point,
returning the (possibly multi-character) lowercase string.  Modelled
exactly on the cases that can reach a key of the all-ASCII pattern table:
the ASCII range A–Z; KELVIN SIGN U+212A, the only code point outside A–Z
whose Unicode lowercase is an ASCII character (`k`); and LATIN CAPITAL
LETTER I WITH DOT ABOVE U+0130, the only code point with a multi-character
default lowercase mapping (`i` followed by COMBINING DOT ABOVE U+0307, per
Unicode SpecialCasing).  Every remaining character either is caseless or
lower-cases to a non-ASCII character; both it and its true lowercase form
miss the table, so approximating those mappings by the ASCII `Char.toLower`
(the identity there) leaves every braille lookup equal to the program's. -/
def jsToLowerChar (c : Char) : List Char :=
  if c.toNat = 0x212A then ['k']
  else if c.toNat = 0x130 then ['i', Char.ofNat 0x307]
  else [c.toLower]

/-- JS `String.prototype.toLowerCase` of a whole text: the per-code-point
lowercase strings concatenated.  (The context-dependent Final_Sigma rule
maps `Σ` to `ς` instead of `σ` at word end; both miss the braille table, so
it is not modelled.) -/
def jsToLowerCaseText (text : List Char) : List Char :=
  text.flatMap jsToLowerChar

/-- Character to Braille pattern (src `braille.ts`, `charToBraille`): lower
the character with JS `toLowerCase`, look the resulting string up, and fall
back to the space pattern `BRAILLE_PATTERNS[' '] = 0b000000` for unknown
keys. -/
def charToBraille (char : Char) : ℕ :=
  let lower := jsToLowerChar char
  (braillePatterns lower).getD 0b000000

/-- Text to Braille cells (src `braille.ts`, `textToBraille`): the
`for..of` push loop is a map over the characters of the text. -/
def textToBraille (text : List Char) : List ℕ :=
  text.map charToBraille

/-- The three config fields read by the Braille renderer (the inline object
type of src `braille.ts`). -/
structure BrailleConfig where
  minHeight : ℝ
  maxHeight : ℝ
  amplitude : ℝ

/-- Render Braille cells as tactile dots (src `braille.ts`,
`renderBrailleCells`): the height array starts all-`minHeight`; each cell is
laid out at `(col*3, row*3)` with 2×3 dots, set dots in-grid raised to
`clamp(minHeight + 0.6*heightRange*amplitude)`.  The imperative writes are
modelled by folding an update function over the cell indices.  When
`cellsPerRow = 0` (gridSize < 3) the JS division by zero makes every
coordinate `Infinity`/`NaN`, the in-grid guard fails and nothing is
written; this is modelled by skipping the writes in that case. -/
noncomputable def renderBrailleCells (cells : List ℕ) (gridSize : ℕ) (config : BrailleConfig) :
    List (List ℝ) :=
  let heightRange := config.maxHeight - config.minHeight
  let cellWidth := 2
  let cellHeight := 3
  let cellSpacing := 1
  let dotsPerCell := cellWidth + cellSpacing
  let cellsPerRow := gridSize / dotsPerCell
  let initHeights : ℕ → ℕ → ℝ := fun _ _ => config.minHeight
  let finalHeights := (List.range cells.length).foldl (fun hts cellIndex =>
    if cellsPerRow = 0 then hts
    else
      let cellPattern := cells.getD cellIndex 0
      let row := cellIndex / cellsPerRow
      let col := cellIndex % cellsPerRow
      let startX := col * dotsPerCell
      let startY := row * cellHeight
      (List.range cellHeight).foldl (fun hts2 dotY =>
        (List.range cellWidth).foldl (fun hts3 dotX =>
          let dotIndex := dotY * cellWidth + dotX
          let dotBit := (cellPattern >>> (5 - dotIndex)) &&& 1
          if dotBit = 1 then
            let xw := startX + dotX
            let yw := startY + dotY
            if xw < gridSize ∧ yw < gridSize then
              fun a b =>
                if a = xw ∧ b = yw then
                  max config.minHeight
                    (min config.maxHeight
                      (config.minHeight + 0.6 * heightRange * config.amplitude))
                else hts3 a b
            else hts3
          else hts3) hts2) hts) initHeights
  (List.range gridSize).map fun (x : ℕ) =>
    (List.range gridSize).map fun (y : ℕ) => finalHeights x y

/-- Render text as Braille (src `braille.ts`, `renderBrailleText`). -/
noncomputable def renderBrailleText (text : List Char) (gridSize : ℕ) (config : BrailleConfig) :
    List (List ℝ) :=
  renderBrailleCells (textToBraille text) gridSize config

/-- The code of an ASCII uppercase letter moves up by 32 under
`Char.toLower`. -/
theorem char_toLower_toNat {c : Char} (h : c.toNat ≥ 65 ∧ c.toNat ≤ 90) :
    c.toLower.toNat = c.toNat + 32 := by
  unfold Char.toLower
  rw [if_pos h]
  have hval : (c.toNat + 32).isValidChar := Or.inl (by omega)
  rw [Char.ofNat, dif_pos hval]
  rfl

/-- `Char.toLower` fixes everything outside the ASCII uppercase range. -/
theorem char_toLower_fixed {c : Char} (h : ¬ (c.toNat ≥ 65 ∧ c.toNat ≤ 90)) :
    c.toLower = c := by
  unfold Char.toLower
  rw [if_neg h]

/-- ASCII lowercasing is idempotent. -/
theorem char_toLower_idem (c : Char) : c.toLower.toLower = c.toLower := by
  by_cases h : c.toNat ≥ 65 ∧ c.toNat ≤ 90
  · refine char_toLower_fixed ?_
    rw [char_toLower_toNat h]
    omega
  · simp only [char_toLower_fixed h]

/-- The JS lowercase string of an ASCII-lower-cased character equals that
of the character itself: ASCII lowering lands outside the two special code
points and is idempotent. -/
theorem jsToLowerChar_toLower (c : Char) : jsToLowerChar c.toLower = jsToLowerChar c := by
  by_cases h : c.toNat ≥ 65 ∧ c.toNat ≤ 90
  · have ht := char_toLower_toNat h
    have h1 : ¬ c.toLower.toNat = 0x212A := by rw [ht]; omega
    have h2 : ¬ c.toLower.toNat = 0x130 := by rw [ht]; omega
    have h3 : ¬ c.toNat = 0x212A := by omega
    have h4 : ¬ c.toNat = 0x130 := by omega
    simp only [jsToLowerChar, if_neg h1, if_neg h2, if_neg h3, if_neg h4, char_toLower_idem]
  · rw [char_toLower_fixed h]

theorem charToBraille_toLower (c : Char) : charToBraille c.toLower = charToBraille c := by
  simp only [charToBraille, jsToLowerChar_toLower]

/-- C10 (amended): `renderBrailleText` is case-insensitive under ASCII
lower-casing — for every text, grid size and config, it returns the same
height array as on the text with `A`–`Z` lower-cased (`Char.toLower`); in
particular `'A'` and `'a'` produce identical height arrays.  The original
claim quantified over full JS lower-casing, which is refuted by the
counterexample below: `toLowerCase` can change the number of characters. -/
theorem c10_braille_ascii_case_insensitive (text : List Char) (gridSize : ℕ)
    (config : BrailleConfig) :
    renderBrailleText text gridSize config =
      renderBrailleText (text.map Char.toLower) gridSize config := by
  unfold renderBrailleText
  congr 1
  unfold textToBraille
  rw [List.map_map]
  exact (List.map_congr_left fun c _ => charToBraille_toLower c).symm

/-- Counterexample to C10 as stated: for `s = "İ"` (LATIN CAPITAL LETTER I
WITH DOT ABOVE, U+0130), JS lower-casing gives the two-character string
`i` + COMBINING DOT ABOVE.  `renderBrailleText "İ"` produces one space cell
(the two-character lookup key misses the table), while the lower-cased text
produces an `i`-pattern cell followed by a space cell — different height
arrays: cell `(1, 0)` is `minHeight = 0` on the left and the raised dot
height `0.6` on the right. -/
theorem c10_unicode_counterexample :
    jsToLowerCaseText [Char.ofNat 0x130] = ['i', Char.ofNat 0x307] ∧
    renderBrailleText [Char.ofNat 0x130] 10
        { minHeight := 0, maxHeight := 1, amplitude := 1 } ≠
      renderBrailleText (jsToLowerCaseText [Char.ofNat 0x130]) 10
        { minHeight := 0, maxHeight := 1, amplitude := 1 } := by
  have hlower : jsToLowerCaseText [Char.ofNat 0x130] = ['i', Char.ofNat 0x307] := by decide
  refine ⟨hlower, ?_⟩
  rw [hlower]
  have hcellsL : textToBraille [Char.ofNat 0x130] = [0b000000] := by decide
  have hcellsR : textToBraille ['i', Char.ofNat 0x307] = [0b010100, 0b000000] := by decide
  intro heq
  have h10 : ((renderBrailleText [Char.ofNat 0x130] 10
        { minHeight := 0, maxHeight := 1, amplitude := 1 }).getD 1 []).getD 0 42 =
      ((renderBrailleText ['i', Char.ofNat 0x307] 10
        { minHeight := 0, maxHeight := 1, amplitude := 1 }).getD 1 []).getD 0 42 := by
    rw [heq]
  have hL : ((renderBrailleText [Char.ofNat 0x130] 10
      { minHeight := 0, maxHeight := 1, amplitude := 1 }).getD 1 []).getD 0 42 = 0 := by
    unfold renderBrailleText
    rw [hcellsL]
    norm_num +decide [renderBrailleCells, List.getD_eq_getElem?_getD, List.getElem?_map,
      List.getElem?_range, List.range_succ]
  have hR : ((renderBrailleText ['i', Char.ofNat 0x307] 10
      { minHeight := 0, maxHeight := 1, amplitude := 1 }).getD 1 []).getD 0 42 = 0.6 := by
    unfold renderBrailleText
    rw [hcellsR]
    norm_num +decide [renderBrailleCells, List.getD_eq_getElem?_getD, List.getElem?_map,
      List.getElem?_range, List.range_succ, max_def, min_def]
  rw [hL, hR] at h10
  norm_num at h10

end Haptic
